import Mathlib

/-!
Verification of the charge-anywhere-tools country-update workflow
(`src/app.py`), as a shallow embedding in Lean.

External collaborators (the HTTP transport, the `xml.etree.ElementTree`
parser, the JSON decoder, the wall clock and the `pytz` time-zone
database) are modelled as explicit oracle inputs: each function takes
the outcome the library would have produced. All repository logic —
validation, credential checks, the SOAP envelope, the response-field
extraction, the CSV scan, the batch sub-flow and the retry — is
translated from the source.
-/

set_option maxRecDepth 10000
set_option linter.unusedVariables false
set_option linter.unnecessarySeqFocus false

namespace ChargeAnywhere

/-- Process-wide configuration read from the environment (`os.getenv`);
`none` models an unset variable, `some ""` an empty one. -/
structure Config where
  channel_name : Option String
  username : Option String
  password : Option String
  client_key : Option String
  client_secret : Option String
  deriving Repr, DecidableEq

/-- Python truthiness of an optional string: `None` and `""` are falsy. -/
def truthy : Option String → Bool
  | none => false
  | some s => s ≠ ""

/-- Country mapping `COUNTRIES` from `app.py`: key ↦ (code, name). -/
def COUNTRIES : List (String × String × String) :=
  [("US", "840", "United States"),
   ("CA", "124", "Canada"),
   ("AU", "036", "Australia")]

/-- Lookup `country_key in COUNTRIES` / `COUNTRIES[country_key]`. -/
def countryLookup (key : String) : Option (String × String) :=
  (COUNTRIES.find? (fun e => e.1 == key)).map (·.2)

/- The SOAP envelope f-string of `create_soap_request`, split at the five
interpolation holes (channel name, user name, password, merchant id,
country code twice). -/

def envPart1 : String :=
  "<?xml version=\"1.0\" encoding=\"utf-8\"?>\n<soap12:Envelope xmlns:xsi=\"http://www.w3.org/2001/XMLSchema-instance\" xmlns:xsd=\"http://www.w3.org/2001/XMLSchema\" xmlns:soap12=\"http://www.w3.org/2003/05/soap-envelope\">\n    <soap12:Body>\n        <Create_Update_MerchantInfo xmlns=\"http://www.chargeanywhere.com/\">\n            <channelCredentials>\n                <ChannelName>"

def envPart2 : String := "</ChannelName>\n                <UserName>"

def envPart3 : String := "</UserName>\n                <Password>"

def envPart4 : String :=
  "</Password>\n            </channelCredentials>\n            <merchantInfo xsi:type=\"ChargeAnyWhereMerchantInfo\">\n                <MerchantId>"

def envPart5 : String :=
  "</MerchantId>\n                <IndustryTypeId>0</IndustryTypeId>\n                <DuplicateCheck>0</DuplicateCheck>\n                <CountryCode>"

def envPart6 : String := "</CountryCode>\n                <CurrencyCode>"

def envPart7 : String :=
  "</CurrencyCode>\n                <SettlementOptions>2</SettlementOptions>\n                <AutoSettle>1</AutoSettle>\n                <SettlementTime>0</SettlementTime>\n                <SupportsPinDebit>1</SupportsPinDebit>\n                <EMV_App_Select_Opt>3</EMV_App_Select_Opt>\n                <AutoSettleAuthOnly>0</AutoSettleAuthOnly>\n            </merchantInfo>\n        </Create_Update_MerchantInfo>\n    </soap12:Body>\n</soap12:Envelope>"

/-- Prefix of `envPart5` up to (excluding) the opening `CountryCode` tag. -/
def envPart5a : String :=
  "</MerchantId>\n                <IndustryTypeId>0</IndustryTypeId>\n                <DuplicateCheck>0</DuplicateCheck>\n                "

/-- The text between the closing `CountryCode` and opening `CurrencyCode`
tags inside `envPart6`. -/
def envPart6b : String := "\n                "

/-- Tail of `envPart7` after the closing `CurrencyCode` tag. -/
def envPart7b : String :=
  "\n                <SettlementOptions>2</SettlementOptions>\n                <AutoSettle>1</AutoSettle>\n                <SettlementTime>0</SettlementTime>\n                <SupportsPinDebit>1</SupportsPinDebit>\n                <EMV_App_Select_Opt>3</EMV_App_Select_Opt>\n                <AutoSettleAuthOnly>0</AutoSettleAuthOnly>\n            </merchantInfo>\n        </Create_Update_MerchantInfo>\n    </soap12:Body>\n</soap12:Envelope>"

/-- The interpolated SOAP envelope body of `create_soap_request`. -/
def soap_envelope (channel_name username password merchant_id country_code : String) : String :=
  envPart1 ++ channel_name ++ envPart2 ++ username ++ envPart3 ++ password ++
    envPart4 ++ merchant_id ++ envPart5 ++ country_code ++ envPart6 ++ country_code ++ envPart7

/-- Function `create_soap_request` (`app.py:64-105`): raises
`ValueError("Missing required credentials in .env file")` when any of the
three credentials is falsy, otherwise returns the envelope. -/
def create_soap_request (cfg : Config) (merchant_id country_code : String) :
    Except String String :=
  if truthy cfg.channel_name && truthy cfg.username && truthy cfg.password then
    .ok (soap_envelope (cfg.channel_name.getD "") (cfg.username.getD "")
      (cfg.password.getD "") merchant_id country_code)
  else
    .error "Missing required credentials in .env file"

/-- An XML element as `xml.etree.ElementTree` exposes it: a tag (with the
namespace URI folded in as `\x7buri\x7dlocal`, which is how ElementTree stores
namespaced tags), the element text (`None` when absent) and the list of
child elements in document order. -/
inductive XMLElem where
  | mk (tag : String) (text : Option String) (children : List XMLElem)

/-- Tag of an element. -/
def XMLElem.tag : XMLElem → String
  | .mk t _ _ => t

/-- Text of an element (`Element.text`). -/
def XMLElem.text : XMLElem → Option String
  | .mk _ x _ => x

/-- Children of an element. -/
def XMLElem.children : XMLElem → List XMLElem
  | .mk _ _ c => c

mutual

/-- First element with the given tag in a forest, searching each tree in
document order (the element itself, then its descendants). -/
def findForest (t : String) : List XMLElem → Option XMLElem
  | [] => none
  | e :: rest =>
    match findTree t e with
    | some r => some r
    | none => findForest t rest

/-- First element with the given tag in a tree: the root itself, else its
descendants in document order. -/
def findTree (t : String) : XMLElem → Option XMLElem
  | .mk tag tx ch =>
    if tag = t then some (.mk tag tx ch) else findForest t ch

end

/-- ElementTree `root.find(".//" + t)`: the first strict descendant of `root` (in
document order) whose tag is `t`; ElementTree's `.//` does not match the
root itself. -/
def XMLElem.findDesc (root : XMLElem) (t : String) : Option XMLElem :=
  findForest t root.children

/-- The namespace-qualified tag ElementTree produces for
`ca:ResponseCode` under the namespace map of `parse_soap_response`. -/
def responseCodeTag : String := "\x7bhttp://www.chargeanywhere.com/\x7dResponseCode"

/-- The namespace-qualified tag for `ca:ResponseText`. -/
def responseTextTag : String := "\x7bhttp://www.chargeanywhere.com/\x7dResponseText"

/-- Result dictionary of `parse_soap_response`. The code fields are
`Option String` because `Element.text` can be `None` in Python. -/
structure SoapResult where
  success : Bool
  response_code : Option String
  response_text : Option String
  deriving Repr, DecidableEq

/-- Function `parse_soap_response` (`app.py:108-140`). The argument is the outcome
of `ET.fromstring(response_text)`: `.error e` when the input is not
parseable XML (the library raised, message `e`), `.ok root` otherwise.
The function itself never raises: every branch returns a `SoapResult`. -/
def parse_soap_response (parsed : Except String XMLElem) : SoapResult :=
  match parsed with
  | .error e =>
    { success := false
      response_code := some "Parse Error"
      response_text := some ("Error parsing response: " ++ e) }
  | .ok root =>
    match root.findDesc responseCodeTag, root.findDesc responseTextTag with
    | some response_code, some response_text_elem =>
      { success := true
        response_code := response_code.text
        response_text := response_text_elem.text }
    | _, _ =>
      { success := false
        response_code := some "Unknown"
        response_text := some "Could not parse response" }

/-- Python whitespace for `str.strip()`: space, tab, newline, carriage
return, vertical tab, form feed. -/
def pySpace (c : Char) : Bool :=
  c = ' ' || c = '\t' || c = '\n' || c = '\r' || c = '\x0b' || c = '\x0c'

/-- Python `str.strip()` (no argument): drop leading and trailing
whitespace. -/
def pyStrip (s : String) : String :=
  ⟨((s.data.dropWhile pySpace).reverse.dropWhile pySpace).reverse⟩

/-- Python `str.split(sep)` for a one-character separator, on the
character list: splitting never drops empty parts and `[]` splits to
`[[]]`, exactly like Python's `"".split(sep) == [""]`. -/
def splitCharList (sep : Char) : List Char → List (List Char)
  | [] => [[]]
  | c :: rest =>
    match splitCharList sep rest with
    | [] => if c = sep then [[], []] else [[c]]
    | h :: t => if c = sep then [] :: h :: t else (c :: h) :: t

/-- Python `str.split(sep)` for a one-character separator. -/
def pySplit (sep : Char) (s : String) : List String :=
  (splitCharList sep s.data).map fun cs => ⟨cs⟩

/-- A record extracted from one line of the batch export reply
(`matching_record` in `get_batch_export_data`). -/
structure BatchRecord where
  emid : String
  terminal_id : String
  identification : String
  deriving Repr, DecidableEq

/-- The `for line in lines` loop of `get_batch_export_data`
(`app.py:194-221`): skip blank lines after stripping, skip lines with
fewer than 3 comma-separated fields, strip the first three fields, and
stop at the first line whose Identification field equals `terminal_id`. -/
def scan_lines (terminal_id : String) : List String → Option BatchRecord
  | [] => none
  | line :: rest =>
    let stripped := pyStrip line
    if stripped = "" then scan_lines terminal_id rest
    else
      let parts := pySplit ',' stripped
      if parts.length < 3 then scan_lines terminal_id rest
      else
        let emid := pyStrip (parts.getD 0 "")
        let returned_terminal_id := pyStrip (parts.getD 1 "")
        let identification := pyStrip (parts.getD 2 "")
        if identification = terminal_id then
          some ⟨emid, returned_terminal_id, identification⟩
        else scan_lines terminal_id rest

/-- The transport outcome of one `requests.post`: either the exception's
message, or the HTTP status code together with the reply body. -/
def HttpReply (β : Type) := Except String (Nat × β)

/-- The `try` block of `get_batch_export_data` (`app.py:147-232`). The
`exportReply` argument is the transport outcome of the POST to the
export endpoint (status and body text). -/
def get_batch_export_body (cfg : Config) (exportReply : HttpReply String)
    (terminal_id : String) : Except String BatchRecord :=
  if !(truthy cfg.client_key && truthy cfg.client_secret) then
    .error "Missing CLIENT_KEY or CLIENT_SECRET in .env file"
  else
    match exportReply with
    | .error e => .error e
    | .ok (status, body) =>
      if status ≠ 200 then
        .error ("Batch export API returned status code " ++ toString status)
      else
        let lines := pySplit '\n' (pyStrip body)
        if lines = [] then .error "No data returned from batch export"
        else
          match scan_lines terminal_id lines with
          | some r => .ok r
          | none => .error ("No matching record found for TID: " ++ terminal_id)

/-- Function `get_batch_export_data` (`app.py:143-236`): every failure inside the
`try` block is re-raised wrapped as `Batch export failed: <msg>` by the
`except` handler. -/
def get_batch_export_data (cfg : Config) (exportReply : HttpReply String)
    (terminal_id : String) : Except String BatchRecord :=
  match get_batch_export_body cfg exportReply terminal_id with
  | .ok r => .ok r
  | .error e => .error ("Batch export failed: " ++ e)

/-- The record one export line denotes, as the specification describes
it: `none` for a blank line or one with fewer than 3 comma-separated
fields, otherwise the first three fields stripped of surrounding
whitespace. -/
def lineRecord (line : String) : Option BatchRecord :=
  let stripped := pyStrip line
  if stripped = "" then none
  else
    let parts := pySplit ',' stripped
    if parts.length < 3 then none
    else some ⟨pyStrip (parts.getD 0 ""), pyStrip (parts.getD 1 ""), pyStrip (parts.getD 2 "")⟩

/-- The export-record list as the specification describes it: split the
body into newline-delimited records and keep the well-formed ones. -/
def export_records (body : String) : List BatchRecord :=
  (pySplit '\n' (pyStrip body)).filterMap lineRecord

/-- The fields of the decoded JSON reply of the close-batch endpoint that
`close_batch` reads; `none` models an absent key (Python
`result.get(key, "")` then yields `""`). -/
structure CloseJson where
  ResponseCode : Option String
  ResponseText : Option String
  deriving Repr, DecidableEq

/-- Result dictionary of `close_batch`. -/
structure CloseResult where
  success : Bool
  response_code : String
  response_text : String
  deriving Repr, DecidableEq

/-- The `try` block of `close_batch` (`app.py:243-280`). The `reply`
argument is the transport outcome of the POST: status code plus the
outcome of `response.json()` (`.error` when the body is not decodable
JSON). The emid / terminal id / identification arguments only populate
the outgoing payload. -/
def close_batch_body (reply : HttpReply (Except String CloseJson))
    (emid terminal_id identification : String) : Except String CloseResult :=
  match reply with
  | .error e => .error e
  | .ok (status, body) =>
    if status ≠ 200 then
      .error ("Close batch API returned status code " ++ toString status)
    else
      match body with
      | .error e => .error e
      | .ok result =>
        let response_code := result.ResponseCode.getD ""
        let response_text := result.ResponseText.getD ""
        .ok { success := response_code == "000"
              response_code := response_code
              response_text := response_text }

/-- The `except` wrapper of `close_batch`: failures re-raised as
`Close batch failed: <msg>`. -/
def close_batch (reply : HttpReply (Except String CloseJson))
    (emid terminal_id identification : String) : Except String CloseResult :=
  match close_batch_body reply emid terminal_id identification with
  | .ok r => .ok r
  | .error e => .error ("Close batch failed: " ++ e)

/-!
Time model for `get_ny_timezone` / `format_ny_date` / `get_ny_dates`
(`app.py:29-61`). An instant is its count of minutes since the Unix
epoch; a civil date is days since 1970-01-01. The proleptic-Gregorian
conversions follow the standard civil-calendar algorithms. The
`America/New_York` zone is modelled by the post-2007 United States DST
rule (EDT, UTC−4:00, from 2:00 local standard time on the second Sunday
of March, i.e. 7:00 UTC, until 2:00 local daylight time on the first
Sunday of November, i.e. 6:00 UTC; EST, UTC−5:00, otherwise), which is
what the zone database contains for the years of interest. `pytz`
attaches its first transition entry — local mean time, UTC−4:56 — when a
`tzinfo` is installed with `datetime.replace(tzinfo=...)` instead of
`localize`; the source does exactly that, so the model reproduces it.
-/

/-- Days since the epoch of the civil date `y-m-d`
(proleptic Gregorian). -/
def daysFromCivil (y m d : Int) : Int :=
  let y := if m ≤ 2 then y - 1 else y
  let era := y.fdiv 400
  let yoe := y - era * 400
  let mp := (m + 9).emod 12
  let doy := (153 * mp + 2).fdiv 5 + d - 1
  let doe := yoe * 365 + yoe.fdiv 4 - yoe.fdiv 100 + doy
  era * 146097 + doe - 719468

/-- Civil date `(y, m, d)` of a day count since the epoch. -/
def civilFromDays (z : Int) : Int × Int × Int :=
  let z := z + 719468
  let era := z.fdiv 146097
  let doe := z - era * 146097
  let yoe := (doe - doe.fdiv 1460 + doe.fdiv 36524 - doe.fdiv 146096).fdiv 365
  let y := yoe + era * 400
  let doy := doe - (365 * yoe + yoe.fdiv 4 - yoe.fdiv 100)
  let mp := (5 * doy + 2).fdiv 153
  let d := doy - (153 * mp + 2).fdiv 5 + 1
  let m := mp + (if mp < 10 then 3 else -9)
  (y + (if m ≤ 2 then 1 else 0), m, d)

/-- Day of week of a day count, `0` = Sunday (1970-01-01 was a
Thursday). -/
def dayOfWeek (z : Int) : Int := (z + 4).emod 7

/-- First Sunday on or after the given day. -/
def firstSundayOnOrAfter (z : Int) : Int := z + (7 - dayOfWeek z).emod 7

/-- Day count of the second Sunday of March of year `y`. -/
def secondSundayOfMarch (y : Int) : Int :=
  firstSundayOnOrAfter (daysFromCivil y 3 1) + 7

/-- Day count of the first Sunday of November of year `y`. -/
def firstSundayOfNovember (y : Int) : Int :=
  firstSundayOnOrAfter (daysFromCivil y 11 1)

/-- UTC offset, in minutes, of `America/New_York` at a UTC instant given
in minutes since the epoch (post-2007 rules). -/
def nyOffsetMin (utcMin : Int) : Int :=
  let y := (civilFromDays (utcMin.fdiv 1440)).1
  let dstStart := secondSundayOfMarch y * 1440 + 7 * 60
  let dstEnd := firstSundayOfNovember y * 1440 + 6 * 60
  if dstStart ≤ utcMin ∧ utcMin < dstEnd then -240 else -300

/-- The UTC offset `pytz.timezone("America/New_York")` reports before
`localize`/`normalize`: local mean time, −4:56 (rounded to minutes). -/
def nyLMTOffsetMin : Int := -296

/-- Model of `datetime.replace(tzinfo=ny_tz)` on a naive wall-clock datetime
(given in minutes): the resulting aware datetime, represented by its UTC
instant, computed with the LMT offset pytz attaches. -/
def replaceTzinfoNY (naiveMin : Int) : Int := naiveMin - nyLMTOffsetMin

/-- Two-digit zero-padded decimal, as `strftime` `%m` / `%d` produce. -/
def pad2 (n : Int) : String :=
  if n < 10 then "0" ++ toString n.toNat else toString n.toNat

/-- Function `format_ny_date` (`app.py:34-38`): convert the aware datetime
(represented by its UTC instant in minutes) to New York wall-clock time
via `astimezone`, then format `"%m/%d/%Y"`. -/
def format_ny_date (utcMin : Int) : String :=
  let wall := utcMin + nyOffsetMin utcMin
  let ymd := civilFromDays (wall.fdiv 1440)
  pad2 ymd.2.1 ++ "/" ++ pad2 ymd.2.2 ++ "/" ++ toString ymd.1.toNat

/-- The dictionary returned by `get_ny_dates`. -/
structure NYDates where
  date_from : String
  date_to : String
  deriving Repr, DecidableEq

/-- The New York civil day (day count) of a UTC instant — the value of
`now_utc.astimezone(ny_tz).date()`. -/
def nyCivilDay (utcMin : Int) : Int := (utcMin + nyOffsetMin utcMin).fdiv 1440

/-- Function `get_ny_dates` (`app.py:41-61`): take the current New York civil
date, step one day back and one day forward, build naive midnights with
`datetime.combine`, attach the zone with `replace(tzinfo=ny_tz)` (which
pins pytz's LMT offset) and format each through `format_ny_date`. -/
def get_ny_dates (nowUtcMin : Int) : NYDates :=
  let today_ny := nyCivilDay nowUtcMin
  let yesterday_ny := today_ny - 1
  let tomorrow_ny := today_ny + 1
  { date_from := format_ny_date (replaceTzinfoNY (yesterday_ny * 1440))
    date_to := format_ny_date (replaceTzinfoNY (tomorrow_ny * 1440)) }

/-!
The `/update_country` handler (`app.py:294-424`).
-/

/-- The stripped form fields of the incoming request; a missing field is
the empty string (`request.form.get(key, "")`). -/
structure Form where
  merchant_id : String
  terminal_id : String
  country : String
  deriving Repr, DecidableEq

/-- The outcomes of the four outbound calls a single handler run can
make, as transport/library oracles. The two update POSTs carry the
outcome of `ET.fromstring` on the reply body (`.error` when the body is
not XML); the transport itself can also raise (outer `.error`). -/
structure Env where
  updateReply : Except String (Except String XMLElem)
  exportReply : HttpReply String
  closeReply : HttpReply (Except String CloseJson)
  retryReply : Except String (Except String XMLElem)

/-- The batch sub-flow fields of the JSON outcome. -/
structure BatchFields where
  batch_closed : Bool
  batch_close_error : Option String
  deriving Repr, DecidableEq

/-- The JSON body `update_country` returns with HTTP 200. `batch` is
`none` on the non-"175" path, where the two batch keys are absent. -/
structure OkBody where
  success : Bool
  merchant_id : String
  terminal_id : String
  country : String
  response_code : Option String
  response_text : Option String
  is_success : Bool
  batch : Option BatchFields
  deriving Repr, DecidableEq

/-- The handler's possible HTTP responses. -/
inductive HandlerResponse where
  /-- HTTP 200 with a JSON body. -/
  | ok (body : OkBody)
  /-- HTTP 400: `{"success": false, "error": msg}`. -/
  | validationError (msg : String)
  /-- HTTP 500 from `except requests.RequestException`. -/
  | requestError (msg : String)
  /-- HTTP 500 from the catch-all `except Exception`. -/
  | unexpectedError (msg : String)
  deriving Repr, DecidableEq

/-- Observable trace of a run: the bodies posted to the merchant-update
endpoint in order, and how often the locate and close sub-steps were
entered. -/
structure Trace where
  updatePosts : List String
  exportCalls : Nat
  closeCalls : Nat
  deriving Repr, DecidableEq

/-- Function `update_country` (`app.py:294-424`), returning the HTTP response
together with the trace of outbound activity. The handler validates the
form, builds and posts the SOAP request, parses the reply, and on
response code "175" runs the locate → close → retry sub-flow whose
exceptions are all caught and downgraded to `batch_close_error`. -/
def update_country (cfg : Config) (form : Form) (env : Env) :
    HandlerResponse × Trace :=
  let merchant_id := pyStrip form.merchant_id
  let terminal_id := pyStrip form.terminal_id
  let country_key := pyStrip form.country
  if merchant_id = "" then
    (.validationError "Merchant ID is required", ⟨[], 0, 0⟩)
  else if terminal_id = "" then
    (.validationError "Terminal ID is required", ⟨[], 0, 0⟩)
  else
    match countryLookup country_key with
    | none => (.validationError "Invalid country selection", ⟨[], 0, 0⟩)
    | some (country_code, country_name) =>
      match create_soap_request cfg merchant_id country_code with
      | .error e => (.unexpectedError ("Unexpected error: " ++ e), ⟨[], 0, 0⟩)
      | .ok soap_request =>
        match env.updateReply with
        | .error e => (.requestError ("API request failed: " ++ e), ⟨[soap_request], 0, 0⟩)
        | .ok replyBody =>
          let result := parse_soap_response replyBody
          if result.response_code = some "175" then
            match get_batch_export_data cfg env.exportReply terminal_id with
            | .error e =>
              (.ok { success := true, merchant_id := merchant_id,
                     terminal_id := terminal_id, country := country_name,
                     response_code := result.response_code,
                     response_text := result.response_text,
                     is_success := result.response_code == some "1",
                     batch := some ⟨false, some e⟩ },
               ⟨[soap_request], 1, 0⟩)
            | .ok export_data =>
              match close_batch env.closeReply export_data.emid
                  export_data.terminal_id export_data.identification with
              | .error e =>
                (.ok { success := true, merchant_id := merchant_id,
                       terminal_id := terminal_id, country := country_name,
                       response_code := result.response_code,
                       response_text := result.response_text,
                       is_success := result.response_code == some "1",
                       batch := some ⟨false, some e⟩ },
                 ⟨[soap_request], 1, 1⟩)
              | .ok close_result =>
                if close_result.success then
                  -- batch_closed is set before the retry is posted
                  match env.retryReply with
                  | .error e =>
                    (.ok { success := true, merchant_id := merchant_id,
                           terminal_id := terminal_id, country := country_name,
                           response_code := result.response_code,
                           response_text := result.response_text,
                           is_success := result.response_code == some "1",
                           batch := some ⟨true, some e⟩ },
                     ⟨[soap_request, soap_request], 1, 1⟩)
                  | .ok retryBody =>
                    let retryResult := parse_soap_response retryBody
                    (.ok { success := true, merchant_id := merchant_id,
                           terminal_id := terminal_id, country := country_name,
                           response_code := retryResult.response_code,
                           response_text := retryResult.response_text,
                           is_success := retryResult.response_code == some "1",
                           batch := some ⟨true, none⟩ },
                     ⟨[soap_request, soap_request], 1, 1⟩)
                else
                  (.ok { success := true, merchant_id := merchant_id,
                         terminal_id := terminal_id, country := country_name,
                         response_code := result.response_code,
                         response_text := result.response_text,
                         is_success := result.response_code == some "1",
                         batch := some ⟨false,
                           some ("Batch close failed: " ++ close_result.response_code ++
                             " - " ++ close_result.response_text)⟩ },
                   ⟨[soap_request], 1, 1⟩)
          else
            (.ok { success := true, merchant_id := merchant_id,
                   terminal_id := terminal_id, country := country_name,
                   response_code := result.response_code,
                   response_text := result.response_text,
                   is_success := result.response_code == some "1",
                   batch := none },
             ⟨[soap_request], 0, 0⟩)

/-!
Concrete fixtures used by the witness theorems.
-/

/-- A configuration with every credential present and non-empty. -/
def cfgW : Config := ⟨some "ch", some "user", some "pw", some "ck", some "cs"⟩

/-- A parsed vendor reply carrying `ResponseCode = 1`,
`ResponseText = OK`. -/
def sampleReply : XMLElem :=
  .mk "Envelope" none
    [.mk "Body" none
      [.mk "Result" none
        [.mk responseCodeTag (some "1") [],
         .mk responseTextTag (some "OK") []]]]

/-- A parsed vendor reply carrying response code "175". -/
def tree175 : XMLElem :=
  .mk "Envelope" none
    [.mk "Body" none
      [.mk responseCodeTag (some "175") [],
       .mk responseTextTag (some "Open batch exists") []]]

/-- A parsed vendor reply carrying response code "1". -/
def tree1 : XMLElem :=
  .mk "Envelope" none
    [.mk "Body" none
      [.mk responseCodeTag (some "1") [],
       .mk responseTextTag (some "Approved") []]]

/-- An environment for the full recovery path: first update answers
"175", the export lists the terminal, the close succeeds and the retry
answers "1". -/
def envHappy : Env :=
  { updateReply := .ok (.ok tree175)
    exportReply := .ok (200, "E1,TT,T1")
    closeReply := .ok (200, .ok ⟨some "000", some "OK"⟩)
    retryReply := .ok (.ok tree1) }

/-- The SOAP request the fixture run builds. -/
def soapW : String := soap_envelope "ch" "user" "pw" "M1" "840"

/-- An option is missing or empty exactly when it is Python-falsy. -/
def missingOrEmpty (o : Option String) : Prop := o = none ∨ o = some ""

/-- Bound stating at most one retry and one recovery sequence for a run's
trace: at most two update posts (the initial one plus at most one
retry), at most one locate call and at most one close call. -/
def TraceBound (t : Trace) : Prop :=
  t.updatePosts.length ≤ 2 ∧ t.exportCalls ≤ 1 ∧ t.closeCalls ≤ 1

end ChargeAnywhere

namespace ChargeAnywhere

/-! Helper lemmas. -/

theorem truthy_eq_false_iff (o : Option String) :
    truthy o = false ↔ missingOrEmpty o := by
  cases o with
  | none => simp [truthy, missingOrEmpty]
  | some s => simp [truthy, missingOrEmpty]

theorem truthy_eq_true_iff (o : Option String) :
    truthy o = true ↔ ¬ missingOrEmpty o := by
  rw [← truthy_eq_false_iff]
  cases truthy o <;> simp

theorem envPart5_split : envPart5 = envPart5a ++ "<CountryCode>" := by decide

theorem envPart6_split :
    envPart6 = "</CountryCode>" ++ (envPart6b ++ "<CurrencyCode>") := by decide

theorem envPart7_split : envPart7 = "</CurrencyCode>" ++ envPart7b := by decide

/-! Claims about the Request Builder. -/

/-- C7: for every valid `(merchantId, countryKey)` pair with non-empty
credentials, the builder's XML output contains the merchant id verbatim
and the country's numeric code in both the `CountryCode` and the
`CurrencyCode` element positions — the same `code` string fills both,
so the two values are identical. -/
theorem create_soap_request_contains_fields
    (cfg : Config) (key code name merchant_id : String)
    (hkey : countryLookup key = some (code, name))
    (hch : truthy cfg.channel_name = true)
    (hun : truthy cfg.username = true)
    (hpw : truthy cfg.password = true) :
    ∃ out, create_soap_request cfg merchant_id code = .ok out ∧
      (∃ p s, out = p ++ merchant_id ++ s) ∧
      (∃ p s, out = p ++ ("<CountryCode>" ++ code ++ "</CountryCode>") ++ s) ∧
      (∃ p s, out = p ++ ("<CurrencyCode>" ++ code ++ "</CurrencyCode>") ++ s) := by
  refine ⟨soap_envelope (cfg.channel_name.getD "") (cfg.username.getD "")
    (cfg.password.getD "") merchant_id code, ?_, ?_, ?_, ?_⟩
  · simp [create_soap_request, hch, hun, hpw]
  · exact ⟨envPart1 ++ (cfg.channel_name.getD "") ++ envPart2 ++ (cfg.username.getD "") ++
      envPart3 ++ (cfg.password.getD "") ++ envPart4,
      envPart5 ++ code ++ envPart6 ++ code ++ envPart7,
      by simp [soap_envelope, String.append_assoc]⟩
  · exact ⟨envPart1 ++ (cfg.channel_name.getD "") ++ envPart2 ++ (cfg.username.getD "") ++
      envPart3 ++ (cfg.password.getD "") ++ envPart4 ++ merchant_id ++ envPart5a,
      envPart6b ++ "<CurrencyCode>" ++ code ++ envPart7,
      by simp [soap_envelope, envPart5_split, envPart6_split, String.append_assoc]⟩
  · exact ⟨envPart1 ++ (cfg.channel_name.getD "") ++ envPart2 ++ (cfg.username.getD "") ++
      envPart3 ++ (cfg.password.getD "") ++ envPart4 ++ merchant_id ++ envPart5 ++ code ++
      "</CountryCode>" ++ envPart6b,
      envPart7b,
      by simp [soap_envelope, envPart6_split, envPart7_split, String.append_assoc]⟩

/-- Witness for C7 at a concrete valid input. -/
theorem create_soap_request_contains_fields_witness :
    ∃ out, create_soap_request cfgW "M1" "840" = .ok out ∧
      (∃ p s, out = p ++ "M1" ++ s) ∧
      (∃ p s, out = p ++ ("<CountryCode>" ++ "840" ++ "</CountryCode>") ++ s) ∧
      (∃ p s, out = p ++ ("<CurrencyCode>" ++ "840" ++ "</CurrencyCode>") ++ s) :=
  create_soap_request_contains_fields cfgW "US" "840" "United States" "M1"
    (by decide) (by decide) (by decide) (by decide)

/-- C8: the builder fails with the configuration error exactly when one
of the three credentials is missing or empty, and succeeds otherwise. -/
theorem create_soap_request_credentials_iff
    (cfg : Config) (merchant_id country_code : String) :
    ((∃ e, create_soap_request cfg merchant_id country_code = .error e) ↔
      (missingOrEmpty cfg.channel_name ∨ missingOrEmpty cfg.username ∨
        missingOrEmpty cfg.password)) ∧
    (¬ (missingOrEmpty cfg.channel_name ∨ missingOrEmpty cfg.username ∨
        missingOrEmpty cfg.password) →
      ∃ xml, create_soap_request cfg merchant_id country_code = .ok xml) := by
  by_cases hch : truthy cfg.channel_name = true <;>
    by_cases hun : truthy cfg.username = true <;>
    by_cases hpw : truthy cfg.password = true <;>
    simp only [Bool.not_eq_true] at hch hun hpw <;>
    simp_all [create_soap_request, truthy_eq_true_iff, truthy_eq_false_iff]

/-- Witness for C8: with every credential present the builder returns
the envelope; C8 itself has no hypothesis, so the witness instantiates
its second conjunct at a concrete configuration. -/
theorem create_soap_request_credentials_iff_witness :
    ∃ xml, create_soap_request cfgW "M1" "840" = .ok xml :=
  (create_soap_request_credentials_iff cfgW "M1" "840").2
    (by simp [cfgW, missingOrEmpty])

/-- C9: the builder is a deterministic function of configuration,
merchant id and country code: two calls on identical inputs yield
identical (byte-identical) XML. -/
theorem create_soap_request_deterministic
    (cfg₁ cfg₂ : Config) (m₁ m₂ c₁ c₂ : String)
    (hcfg : cfg₁ = cfg₂) (hm : m₁ = m₂) (hc : c₁ = c₂) :
    create_soap_request cfg₁ m₁ c₁ = create_soap_request cfg₂ m₂ c₂ := by
  rw [hcfg, hm, hc]

/-- Witness for C9 at concrete equal inputs. -/
theorem create_soap_request_deterministic_witness :
    create_soap_request cfgW "M1" "840" = create_soap_request cfgW "M1" "840" :=
  create_soap_request_deterministic cfgW cfgW "M1" "M1" "840" "840" rfl rfl rfl

/-! Claim about the Response Parser. -/

/-- C5: the parser is total (it returns a `SoapResult` on every library
outcome — in the source every failure is caught and returned as data)
and: an unparseable input yields `Parse Error` with a message embedding
the parse failure; a parsed document missing either namespace-qualified
element yields `Unknown`; a document with both yields success with the
two text contents. -/
theorem parse_soap_response_cases (p : Except String XMLElem) :
    (∀ e, p = .error e →
      parse_soap_response p =
        ⟨false, some "Parse Error", some ("Error parsing response: " ++ e)⟩) ∧
    (∀ root, p = .ok root →
      (root.findDesc responseCodeTag = none ∨ root.findDesc responseTextTag = none) →
      parse_soap_response p = ⟨false, some "Unknown", some "Could not parse response"⟩) ∧
    (∀ root rc rt, p = .ok root →
      root.findDesc responseCodeTag = some rc →
      root.findDesc responseTextTag = some rt →
      parse_soap_response p = ⟨true, rc.text, rt.text⟩) := by
  refine ⟨?_, ?_, ?_⟩
  · intro e he
    subst he
    rfl
  · intro root hp habs
    subst hp
    cases hc : root.findDesc responseCodeTag <;>
      cases ht : root.findDesc responseTextTag <;>
        simp [parse_soap_response, hc, ht] <;>
          rcases habs with h | h <;> simp_all
  · intro root rc rt hp h1 h2
    subst hp
    simp [parse_soap_response, h1, h2]

/-- Witness for C5: the spec's example reply with `ResponseCode = 1` and
`ResponseText = OK`. -/
theorem parse_soap_response_cases_witness :
    parse_soap_response (.ok sampleReply) = ⟨true, some "1", some "OK"⟩ :=
  (parse_soap_response_cases (.ok sampleReply)).2.2 sampleReply
    (.mk responseCodeTag (some "1") []) (.mk responseTextTag (some "OK") [])
    rfl rfl rfl

/-! Claim about the Batch Locator. -/

/-- Splitting never produces the empty list (Python `split` always
returns at least one part). -/
theorem splitCharList_ne_nil (sep : Char) (l : List Char) :
    splitCharList sep l ≠ [] := by
  cases l with
  | nil => simp [splitCharList]
  | cons c rest =>
    simp only [splitCharList]
    split <;> split <;> simp

/-- Python `split` on a string always returns at least one part. -/
theorem pySplit_ne_nil (sep : Char) (s : String) : pySplit sep s ≠ [] := by
  simp [pySplit, splitCharList_ne_nil]

/-- The `try` block of the Batch Locator on a 200 reply reduces to the
line scan. -/
theorem get_batch_export_body_200 (cfg : Config) (body terminal_id : String)
    (hck : truthy cfg.client_key = true)
    (hcs : truthy cfg.client_secret = true) :
    get_batch_export_body cfg (.ok (200, body)) terminal_id =
      match scan_lines terminal_id (pySplit '\n' (pyStrip body)) with
      | some r => .ok r
      | none => .error ("No matching record found for TID: " ++ terminal_id) := by
  have hne := pySplit_ne_nil '\n' (pyStrip body)
  simp [get_batch_export_body, hck, hcs, hne]

/-- One step of the source loop, phrased through `lineRecord`. -/
theorem scan_lines_step (terminal_id l : String) (rest : List String) :
    scan_lines terminal_id (l :: rest) =
      match lineRecord l with
      | none => scan_lines terminal_id rest
      | some r =>
        if r.identification = terminal_id then some r
        else scan_lines terminal_id rest := by
  simp only [scan_lines, lineRecord]
  by_cases h0 : pyStrip l = ""
  · simp [h0]
  · by_cases h3 : (pySplit ',' (pyStrip l)).length < 3
    · simp [h0, h3]
    · simp [h0, h3]

/-- The source loop agrees, line list by line list, with "first
well-formed record whose Identification field equals the terminal id". -/
theorem scan_lines_eq_find (terminal_id : String) (lines : List String) :
    scan_lines terminal_id lines =
      (lines.filterMap lineRecord).find?
        (fun r => r.identification == terminal_id) := by
  induction lines with
  | nil => rfl
  | cons l rest ih =>
    rw [scan_lines_step, List.filterMap_cons]
    cases hlr : lineRecord l with
    | none => simpa using ih
    | some r =>
      dsimp only
      by_cases hid : r.identification = terminal_id
      · rw [if_pos hid, List.find?_cons_of_pos _ (by simp [hid])]
      · rw [if_neg hid, List.find?_cons_of_neg _ (by simp [hid]), ih]

/-- C6: on a 200 reply with body `body` (and configured client
credentials), the Batch Locator returns the first record of
`export_records body` — newline-delimited, blank and short lines
skipped, fields stripped — whose Identification field equals the
requested terminal id exactly; when no record matches it fails with the
not-found error. -/
theorem get_batch_export_data_first_match
    (cfg : Config) (body terminal_id : String)
    (hck : truthy cfg.client_key = true)
    (hcs : truthy cfg.client_secret = true) :
    get_batch_export_data cfg (.ok (200, body)) terminal_id =
      match (export_records body).find? (fun r => r.identification == terminal_id) with
      | some r => .ok r
      | none => .error ("Batch export failed: No matching record found for TID: " ++
          terminal_id) := by
  unfold get_batch_export_data
  rw [get_batch_export_body_200 cfg body terminal_id hck hcs, scan_lines_eq_find]
  have hpre : ("Batch export failed: " ++ "No matching record found for TID: " : String) =
      "Batch export failed: No matching record found for TID: " := by decide
  cases hfind : ((pySplit '\n' (pyStrip body)).filterMap lineRecord).find?
      (fun r => r.identification == terminal_id) <;>
    simp [export_records, hfind, ← String.append_assoc, hpre]

/-- Witness for C6: the spec's example export body and terminal id. -/
theorem get_batch_export_data_first_match_witness :
    get_batch_export_data cfgW (.ok (200, "E1,T1,ID1\nE2,T2,ID2")) "ID2" =
      .ok ⟨"E2", "T2", "ID2"⟩ :=
  get_batch_export_data_first_match cfgW "E1,T1,ID1\nE2,T2,ID2" "ID2"
    (by decide) (by decide)

/-! Claims about the Workflow Orchestrator. -/

/-- Every error the Batch Locator reports carries the non-empty
`Batch export failed:` prefix. -/
theorem get_batch_export_data_error_ne_empty
    (cfg : Config) (r : HttpReply String) (terminal_id e : String)
    (h : get_batch_export_data cfg r terminal_id = .error e) : e ≠ "" := by
  unfold get_batch_export_data at h
  cases hb : get_batch_export_body cfg r terminal_id with
  | ok v => rw [hb] at h; cases h
  | error e0 =>
    rw [hb] at h
    cases h
    intro hcontra
    have := congrArg String.length hcontra
    have hl : (0 : Nat) < "Batch export failed: ".length := by decide
    simp [String.length_append] at this
    omega

/-- C1: when the first update parses to code "175" and both the locate
and the close succeed (close code "000", i.e. `success = true`), the
handler re-posts the identical SOAP request exactly once and reports the
retry's parsed code and text — not the original "175" result — with
`batch_closed = true` and no batch-close error. -/
theorem update_country_retry_on_close_success
    (cfg : Config) (form : Form) (env : Env)
    (code name soap : String) (ubody rbody : Except String XMLElem)
    (rec : BatchRecord) (cr : CloseResult)
    (hm : pyStrip form.merchant_id ≠ "")
    (ht : pyStrip form.terminal_id ≠ "")
    (hk : countryLookup (pyStrip form.country) = some (code, name))
    (hreq : create_soap_request cfg (pyStrip form.merchant_id) code = .ok soap)
    (hu : env.updateReply = .ok ubody)
    (h175 : (parse_soap_response ubody).response_code = some "175")
    (hx : get_batch_export_data cfg env.exportReply (pyStrip form.terminal_id) = .ok rec)
    (hc : close_batch env.closeReply rec.emid rec.terminal_id rec.identification = .ok cr)
    (hcs : cr.success = true)
    (hr : env.retryReply = .ok rbody) :
    update_country cfg form env =
      (.ok { success := true
             merchant_id := pyStrip form.merchant_id
             terminal_id := pyStrip form.terminal_id
             country := name
             response_code := (parse_soap_response rbody).response_code
             response_text := (parse_soap_response rbody).response_text
             is_success := (parse_soap_response rbody).response_code == some "1"
             batch := some ⟨true, none⟩ },
       ⟨[soap, soap], 1, 1⟩) := by
  simp [update_country, hm, ht, hk, hreq, hu, h175, hx, hc, hcs, hr]

/-- Witness for C1: a full concrete recovery run ending in the retry's
"1"/"Approved" result. -/
theorem update_country_retry_on_close_success_witness :
    update_country cfgW ⟨"M1", "T1", "US"⟩ envHappy =
      (.ok ⟨true, "M1", "T1", "United States", some "1", some "Approved", true,
        some ⟨true, none⟩⟩,
       ⟨[soapW, soapW], 1, 1⟩) :=
  update_country_retry_on_close_success cfgW ⟨"M1", "T1", "US"⟩ envHappy
    "840" "United States" soapW (.ok tree175) (.ok tree1)
    ⟨"E1", "TT", "T1"⟩ ⟨true, "000", "OK"⟩
    (by decide) (by decide) (by decide) rfl rfl rfl rfl rfl rfl rfl

/-- C2: when the first update parses to code "175" and the batch
sub-flow fails — the locate raises, or the close returns
`success = false` — no retry is posted, the handler still answers
HTTP 200 with `success = true`, `batch_closed = false`, a non-empty
`batch_close_error`, and the original "175" parse as the reported
result. -/
theorem update_country_no_retry_on_subflow_failure
    (cfg : Config) (form : Form) (env : Env)
    (code name soap : String) (ubody : Except String XMLElem)
    (hm : pyStrip form.merchant_id ≠ "")
    (ht : pyStrip form.terminal_id ≠ "")
    (hk : countryLookup (pyStrip form.country) = some (code, name))
    (hreq : create_soap_request cfg (pyStrip form.merchant_id) code = .ok soap)
    (hu : env.updateReply = .ok ubody)
    (h175 : (parse_soap_response ubody).response_code = some "175")
    (hfail :
      (∃ e, get_batch_export_data cfg env.exportReply (pyStrip form.terminal_id) = .error e) ∨
      (∃ rec cr,
        get_batch_export_data cfg env.exportReply (pyStrip form.terminal_id) = .ok rec ∧
        close_batch env.closeReply rec.emid rec.terminal_id rec.identification = .ok cr ∧
        cr.success = false)) :
    ∃ msg n, msg ≠ "" ∧
      update_country cfg form env =
        (.ok { success := true
               merchant_id := pyStrip form.merchant_id
               terminal_id := pyStrip form.terminal_id
               country := name
               response_code := (parse_soap_response ubody).response_code
               response_text := (parse_soap_response ubody).response_text
               is_success := (parse_soap_response ubody).response_code == some "1"
               batch := some ⟨false, some msg⟩ },
         ⟨[soap], 1, n⟩) := by
  rcases hfail with ⟨e, he⟩ | ⟨rec, cr, hx, hc, hcs⟩
  · refine ⟨e, 0, get_batch_export_data_error_ne_empty cfg env.exportReply _ e he, ?_⟩
    simp [update_country, hm, ht, hk, hreq, hu, h175, he]
  · refine ⟨"Batch close failed: " ++ cr.response_code ++ " - " ++ cr.response_text, 1,
      ?_, ?_⟩
    · intro hcontra
      have := congrArg String.length hcontra
      have hl : (0 : Nat) < "Batch close failed: ".length := by decide
      simp [String.length_append] at this
      omega
    · simp [update_country, hm, ht, hk, hreq, hu, h175, hx, hc, hcs]

/-- Witness for C2: the locate finds no matching record, so the outcome
keeps the "175" result with `batch_closed = false`. -/
theorem update_country_no_retry_on_subflow_failure_witness :
    ∃ msg n, msg ≠ "" ∧
      update_country cfgW ⟨"M1", "T1", "US"⟩
          { envHappy with exportReply := .ok (200, "nothing") } =
        (.ok { success := true
               merchant_id := "M1"
               terminal_id := "T1"
               country := "United States"
               response_code := some "175"
               response_text := some "Open batch exists"
               is_success := false
               batch := some ⟨false, some msg⟩ },
         ⟨[soapW], 1, n⟩) :=
  update_country_no_retry_on_subflow_failure cfgW ⟨"M1", "T1", "US"⟩
    { envHappy with exportReply := .ok (200, "nothing") }
    "840" "United States" soapW (.ok tree175)
    (by decide) (by decide) (by decide) rfl rfl rfl
    (Or.inl ⟨"Batch export failed: No matching record found for TID: T1", rfl⟩)

/-- C10: when the close succeeded but the retry POST itself raises a
transport exception, the handler still answers HTTP 200 with
`success = true`, `batch_closed = true` (it is set before the retry is
sent) together with `batch_close_error` holding the transport message,
and the original "175" parse as the reported result. -/
theorem update_country_retry_transport_failure
    (cfg : Config) (form : Form) (env : Env)
    (code name soap e : String) (ubody : Except String XMLElem)
    (rec : BatchRecord) (cr : CloseResult)
    (hm : pyStrip form.merchant_id ≠ "")
    (ht : pyStrip form.terminal_id ≠ "")
    (hk : countryLookup (pyStrip form.country) = some (code, name))
    (hreq : create_soap_request cfg (pyStrip form.merchant_id) code = .ok soap)
    (hu : env.updateReply = .ok ubody)
    (h175 : (parse_soap_response ubody).response_code = some "175")
    (hx : get_batch_export_data cfg env.exportReply (pyStrip form.terminal_id) = .ok rec)
    (hc : close_batch env.closeReply rec.emid rec.terminal_id rec.identification = .ok cr)
    (hcs : cr.success = true)
    (hr : env.retryReply = .error e) :
    update_country cfg form env =
      (.ok { success := true
             merchant_id := pyStrip form.merchant_id
             terminal_id := pyStrip form.terminal_id
             country := name
             response_code := (parse_soap_response ubody).response_code
             response_text := (parse_soap_response ubody).response_text
             is_success := (parse_soap_response ubody).response_code == some "1"
             batch := some ⟨true, some e⟩ },
       ⟨[soap, soap], 1, 1⟩) := by
  simp [update_country, hm, ht, hk, hreq, hu, h175, hx, hc, hcs, hr]

/-- Witness for C10: the retry raises "connection reset"; the outcome
keeps the "175" result, `batch_closed = true` and carries the message. -/
theorem update_country_retry_transport_failure_witness :
    update_country cfgW ⟨"M1", "T1", "US"⟩
        { envHappy with retryReply := .error "connection reset" } =
      (.ok ⟨true, "M1", "T1", "United States", some "175", some "Open batch exists", false,
        some ⟨true, some "connection reset"⟩⟩,
       ⟨[soapW, soapW], 1, 1⟩) :=
  update_country_retry_transport_failure cfgW ⟨"M1", "T1", "US"⟩
    { envHappy with retryReply := .error "connection reset" }
    "840" "United States" soapW "connection reset" (.ok tree175)
    ⟨"E1", "TT", "T1"⟩ ⟨true, "000", "OK"⟩
    (by decide) (by decide) (by decide) rfl rfl rfl rfl rfl rfl rfl

/-- C4: in every run — whatever the configuration, form and external
replies, including a retry that parses to "175" again — at most two
bodies are ever posted to the update endpoint (the initial send plus at
most one retry), and the locate and close sub-steps each run at most
once: there is no second recovery sequence. -/
theorem update_country_at_most_one_retry (cfg : Config) (form : Form) (env : Env) :
    TraceBound (update_country cfg form env).2 := by
  by_cases h1 : pyStrip form.merchant_id = ""
  · simp [TraceBound, update_country, h1]
  by_cases h2 : pyStrip form.terminal_id = ""
  · simp [TraceBound, update_country, h1, h2]
  cases hk : countryLookup (pyStrip form.country) with
  | none => simp [TraceBound, update_country, h1, h2, hk]
  | some cn =>
    obtain ⟨code, name⟩ := cn
    cases hreq : create_soap_request cfg (pyStrip form.merchant_id) code with
    | error e => simp [TraceBound, update_country, h1, h2, hk, hreq]
    | ok soap =>
      cases hu : env.updateReply with
      | error e => simp [TraceBound, update_country, h1, h2, hk, hreq, hu]
      | ok ubody =>
        by_cases h175 : (parse_soap_response ubody).response_code = some "175"
        · cases hx : get_batch_export_data cfg env.exportReply (pyStrip form.terminal_id) with
          | error e => simp [TraceBound, update_country, h1, h2, hk, hreq, hu, h175, hx]
          | ok rec =>
            cases hc : close_batch env.closeReply rec.emid rec.terminal_id
                rec.identification with
            | error e =>
              simp [TraceBound, update_country, h1, h2, hk, hreq, hu, h175, hx, hc]
            | ok cr =>
              by_cases hcs : cr.success = true
              · cases hr : env.retryReply with
                | error e =>
                  simp [TraceBound, update_country, h1, h2, hk, hreq, hu, h175, hx, hc,
                    hcs, hr]
                | ok rbody =>
                  simp [TraceBound, update_country, h1, h2, hk, hreq, hu, h175, hx, hc,
                    hcs, hr]
              · simp [TraceBound, update_country, h1, h2, hk, hreq, hu, h175, hx, hc, hcs]
        · simp [TraceBound, update_country, h1, h2, hk, hreq, hu, h175]

/-- Witness for C4: the bound instantiated on the concrete full-recovery
run, which does post the retry. -/
theorem update_country_at_most_one_retry_witness :
    TraceBound (update_country cfgW ⟨"M1", "T1", "US"⟩ envHappy).2 :=
  update_country_at_most_one_retry cfgW ⟨"M1", "T1", "US"⟩ envHappy

/-! Claim about the Batch Locator's date window. -/

/-- C3: the claim that the window is always `[yesterday, tomorrow]` in
US-Eastern civil dates fails on the code. At the winter instant
2024-01-15 12:00 UTC the New York civil date is 2024-01-15 (07:00 EST),
so the claimed window is 01/14/2024 – 01/16/2024; but
`datetime.replace(tzinfo=pytz.timezone("America/New_York"))` pins the
zone's LMT offset (−4:56), so each formatted endpoint lands at 23:56 of
the *previous* EST day and the code returns 01/13/2024 – 01/15/2024.
(During EDT the −4:56 midnight lands at 00:56 the same day, which is why
the slip only shows outside daylight-saving time.) -/
theorem get_ny_dates_winter_window_shifted :
    get_ny_dates (daysFromCivil 2024 1 15 * 1440 + 720) =
        ⟨"01/13/2024", "01/15/2024"⟩ ∧
    civilFromDays (nyCivilDay (daysFromCivil 2024 1 15 * 1440 + 720)) = (2024, 1, 15) ∧
    civilFromDays (nyCivilDay (daysFromCivil 2024 1 15 * 1440 + 720) - 1) = (2024, 1, 14) ∧
    civilFromDays (nyCivilDay (daysFromCivil 2024 1 15 * 1440 + 720) + 1) = (2024, 1, 16) ∧
    get_ny_dates (daysFromCivil 2024 1 15 * 1440 + 720) ≠
        ⟨"01/14/2024", "01/16/2024"⟩ := by
  refine ⟨by decide, by decide, by decide, by decide, by decide⟩

end ChargeAnywhere
